import Mathlib

/-!
Shallow embedding of the Assets API service (`src/app.py`).

The service exposes read-only analytics over a relational table `assets`:
  * `GET /kpi/summary`        — aggregate kWh totals (`kpi_summary`),
  * `GET /assets`             — filtered, ordered, paginated listing (`list_assets`),
  * `GET /insights/anomalies` — peer-group z-score anomaly detection (`anomalies`).

The database table is modelled as a `List AssetDTO` (a point-in-time snapshot);
SQL numeric expressions are idealised over `ℝ`, `STDDEV_POP` via `Real.sqrt`,
and SQL `NULL` produced by aggregates over zero rows via `Option`.
-/

open scoped Classical

/-- A row of the `assets` table, with the columns selected by the service
(mirrors the `AssetDTO` pydantic model in `src/app.py`). -/
structure AssetDTO where
  asset_id : String
  asset_type : String
  building : String
  floor : String
  zone : String
  status : String
  fault_reoccurrence_level : String
  energy_consumed_per_hour : ℝ
  planned_active_hours : ℝ
  actual_active_hours : ℝ

/-- The derived energy quantity `actual_active_hours * energy_consumed_per_hour`
that the anomaly SQL computes for every asset (`a.actual_active_hours *
a.energy_consumed_per_hour` in `src/app.py`). -/
def actualKwh (a : AssetDTO) : ℝ :=
  a.actual_active_hours * a.energy_consumed_per_hour

/-- SQL `AVG` over a (nonempty) group of values: sum divided by count. -/
noncomputable def listAvg (l : List ℝ) : ℝ := l.sum / l.length

/-- SQL `VAR_POP`: mean of squared deviations from the mean (divisor `N`). -/
noncomputable def listVarPop (l : List ℝ) : ℝ :=
  (l.map (fun x => (x - listAvg l) ^ 2)).sum / l.length

/-- SQL `STDDEV_POP`: square root of the population variance. -/
noncomputable def listStdPop (l : List ℝ) : ℝ := Real.sqrt (listVarPop l)

/-- The peer group of category `t`: all rows of the snapshot whose
`asset_type` equals `t` (the `GROUP BY asset_type` cohort in the CTE `peer`). -/
def peersOf (assets : List AssetDTO) (t : String) : List AssetDTO :=
  assets.filter (fun b => b.asset_type == t)

/-- `avg_kwh` of the `peer` CTE row for category `t`:
`AVG(actual_active_hours * energy_consumed_per_hour)` over the cohort. -/
noncomputable def avgKwhOf (assets : List AssetDTO) (t : String) : ℝ :=
  listAvg ((peersOf assets t).map actualKwh)

/-- `std_kwh` of the `peer` CTE row for category `t`:
`STDDEV_POP(actual_active_hours * energy_consumed_per_hour)` over the cohort. -/
noncomputable def stdKwhOf (assets : List AssetDTO) (t : String) : ℝ :=
  listStdPop ((peersOf assets t).map actualKwh)

/-- The z-score `CASE` expression of the anomaly SQL:
`CASE WHEN std > 0 THEN (kwh - avg) / std ELSE 0 END`. -/
noncomputable def zscoreCase (kwh avg std : ℝ) : ℝ :=
  if 0 < std then (kwh - avg) / std else 0

/-- A row of the `/insights/anomalies` response (the `AnomalyDTO` pydantic
model in `src/app.py`). -/
structure AnomalyDTO where
  asset_id : String
  asset_type : String
  building : String
  floor : String
  zone : String
  actual_kwh : ℝ
  avg_kwh : ℝ
  std_kwh : ℝ
  zscore : ℝ

/-- The `SELECT` row produced for asset `a` by joining it (`USING (asset_type)`)
with its category's `peer` statistics. -/
noncomputable def rowOf (assets : List AssetDTO) (a : AssetDTO) : AnomalyDTO :=
  { asset_id := a.asset_id
    asset_type := a.asset_type
    building := a.building
    floor := a.floor
    zone := a.zone
    actual_kwh := actualKwh a
    avg_kwh := avgKwhOf assets a.asset_type
    std_kwh := stdKwhOf assets a.asset_type
    zscore := zscoreCase (actualKwh a) (avgKwhOf assets a.asset_type)
      (stdKwhOf assets a.asset_type) }

/-- Insert a row into a list kept in descending `|zscore|` order. -/
noncomputable def insertDesc (r : AnomalyDTO) : List AnomalyDTO → List AnomalyDTO
  | [] => [r]
  | s :: rest =>
    if |r.zscore| ≤ |s.zscore| then s :: insertDesc r rest else r :: s :: rest

/-- Sort rows by `|zscore|` descending (the `ORDER BY ABS(...) DESC`). -/
noncomputable def sortDesc : List AnomalyDTO → List AnomalyDTO
  | [] => []
  | r :: rest => insertDesc r (sortDesc rest)

/-- The full anomaly query of `GET /insights/anomalies` (`anomalies` in
`src/app.py`): join every asset with its category's peer statistics, keep rows
with `ABS(zscore) >= z`, order by `ABS(zscore)` descending, `LIMIT 50`. -/
noncomputable def anomalies (assets : List AssetDTO) (z : ℝ) : List AnomalyDTO :=
  (sortDesc ((assets.map (rowOf assets)).filter
    (fun r => decide (z ≤ |r.zscore|)))).take 50

/-- The `ORDER BY asset_type, building, floor, asset_id` sort key of
`list_assets`, as a lexicographic product of the four text columns. -/
def assetKey (a : AssetDTO) : Lex (String × Lex (String × Lex (String × String))) :=
  toLex (a.asset_type, toLex (a.building, toLex (a.floor, a.asset_id)))

/-- Ascending order on assets induced by the four-column sort key. -/
def assetKeyLE (a b : AssetDTO) : Prop := assetKey a ≤ assetKey b

/-- Insert an asset into a list kept in ascending key order. -/
def insertAsc (a : AssetDTO) : List AssetDTO → List AssetDTO
  | [] => [a]
  | b :: rest =>
    if assetKey b ≤ assetKey a then b :: insertAsc a rest else a :: b :: rest

/-- Sort assets by the `ORDER BY asset_type, building, floor, asset_id` key. -/
def sortAssets : List AssetDTO → List AssetDTO
  | [] => []
  | a :: rest => insertAsc a (sortAssets rest)

/-- One optional equality filter of the `list_assets` `WHERE` clause:
`($i::text IS NULL OR column = $i)`. -/
def optMatch : Option String → String → Bool
  | none, _ => true
  | some v, x => x == v

/-- The conjunction of the four optional filters of `list_assets`. -/
def matchesFilters (building floor asset_type status : Option String)
    (a : AssetDTO) : Bool :=
  optMatch building a.building && optMatch floor a.floor &&
    optMatch asset_type a.asset_type && optMatch status a.status

/-- Default of the `limit` query parameter (`Query(500, ge=1, le=5000)`). -/
def limitDefault : ℤ := 500

/-- Default of the `offset` query parameter (`Query(0, ge=0)`). -/
def offsetDefault : ℤ := 0

/-- `GET /assets` (`list_assets` in `src/app.py`): the FastAPI `Query`
validation accepts the call only when `1 <= limit <= 5000` and `0 <= offset`
(otherwise HTTP 422); on acceptance it runs the SQL: filter by the supplied
optional parameters, order by the four-column key, then `OFFSET`, `LIMIT`. -/
def list_assets (db : List AssetDTO)
    (building floor asset_type status : Option String)
    (limit offset : ℤ) : Except Nat (List AssetDTO) :=
  if 1 ≤ limit ∧ limit ≤ 5000 ∧ 0 ≤ offset then
    .ok (((sortAssets (db.filter
      (matchesFilters building floor asset_type status))).drop
        offset.toNat).take limit.toNat)
  else .error 422

/-- SQL `SUM` over the values of a column expression: `NULL` (here `none`)
when there are zero rows, otherwise the sum. -/
def sqlSum (l : List ℝ) : Option ℝ :=
  match l with
  | [] => none
  | _ => some l.sum

/-- SQL `SUM` of an integer expression, `NULL` on zero rows. -/
def sqlSumInt (l : List ℤ) : Option ℤ :=
  match l with
  | [] => none
  | _ => some l.sum

/-- SQL `COALESCE(x, d)`. -/
def coalesce {α : Type} (x : Option α) (d : α) : α := x.getD d

/-- SQL subtraction of two nullable values: `NULL` if either side is `NULL`. -/
def optSub (x y : Option ℝ) : Option ℝ :=
  match x, y with
  | some a, some b => some (a - b)
  | _, _ => none

/-- The `KpiSummary` response model of `src/app.py`. -/
structure KpiSummary where
  baseline_kwh : ℝ
  actual_kwh : ℝ
  saved_kwh : ℝ
  offline_count : ℤ

/-- `GET /kpi/summary` (`kpi_summary` in `src/app.py`): the four
`COALESCE(SUM(...), 0)` aggregates over the whole `assets` table. -/
noncomputable def kpi_summary (db : List AssetDTO) : KpiSummary :=
  { baseline_kwh := coalesce (sqlSum (db.map
      (fun a => a.planned_active_hours * a.energy_consumed_per_hour))) 0
    actual_kwh := coalesce (sqlSum (db.map
      (fun a => a.actual_active_hours * a.energy_consumed_per_hour))) 0
    saved_kwh := coalesce (optSub
      (sqlSum (db.map
        (fun a => a.planned_active_hours * a.energy_consumed_per_hour)))
      (sqlSum (db.map
        (fun a => a.actual_active_hours * a.energy_consumed_per_hour)))) 0
    offline_count := coalesce (sqlSumInt (db.map
      (fun a => if a.status = "OFFLINE" then 1 else 0))) 0 }

/-- The HTTP-layer handling of the `z` query parameter of
`GET /insights/anomalies`, declared `z: float = Query(2.0, ge=0.0, le=10.0)`:
an absent parameter takes the default `2.0`; a supplied value is validated
against the `ge`/`le` bounds and the request is rejected with HTTP 422 when a
bound is violated (FastAPI validation rejects, it does not clamp). -/
noncomputable def parseZ : Option ℝ → Except Nat ℝ
  | none => .ok 2
  | some v => if 0 ≤ v ∧ v ≤ 10 then .ok v else .error 422

/-- Descending-magnitude order on anomaly rows: the later row's `|zscore|`
does not exceed the earlier row's. -/
def zAbsGE (a b : AnomalyDTO) : Prop := |b.zscore| ≤ |a.zscore|

theorem mem_insertDesc (x r : AnomalyDTO) (l : List AnomalyDTO) :
    x ∈ insertDesc r l ↔ x = r ∨ x ∈ l := by
  induction l with
  | nil => simp [insertDesc]
  | cons s rest ih =>
    rw [insertDesc]
    by_cases hc : |r.zscore| ≤ |s.zscore|
    · rw [if_pos hc]
      simp only [List.mem_cons, ih]
      tauto
    · rw [if_neg hc]
      simp only [List.mem_cons]

theorem pairwise_insertDesc (r : AnomalyDTO) (l : List AnomalyDTO)
    (h : l.Pairwise zAbsGE) : (insertDesc r l).Pairwise zAbsGE := by
  induction l with
  | nil => simp [insertDesc, zAbsGE]
  | cons s rest ih =>
    rw [insertDesc]
    rcases List.pairwise_cons.mp h with ⟨hs, hrest⟩
    by_cases hc : |r.zscore| ≤ |s.zscore|
    · rw [if_pos hc]
      refine List.pairwise_cons.mpr ⟨?_, ih hrest⟩
      intro x hx
      rcases (mem_insertDesc x r rest).mp hx with rfl | hx2
      · exact hc
      · exact hs x hx2
    · rw [if_neg hc]
      refine List.pairwise_cons.mpr ⟨?_, h⟩
      intro x hx
      rcases List.mem_cons.mp hx with rfl | hx2
      · exact le_of_lt (not_le.mp hc)
      · exact le_trans (hs x hx2) (le_of_lt (not_le.mp hc))

theorem pairwise_sortDesc (l : List AnomalyDTO) : (sortDesc l).Pairwise zAbsGE := by
  induction l with
  | nil => simp [sortDesc]
  | cons r rest ih =>
    rw [sortDesc]
    exact pairwise_insertDesc r _ ih

theorem mem_sortDesc (x : AnomalyDTO) (l : List AnomalyDTO) :
    x ∈ sortDesc l ↔ x ∈ l := by
  induction l with
  | nil => simp [sortDesc]
  | cons r rest ih =>
    rw [sortDesc, mem_insertDesc]
    simp [ih]

theorem mem_anomalies_le {assets : List AssetDTO} {z : ℝ} {r : AnomalyDTO}
    (h : r ∈ anomalies assets z) : z ≤ |r.zscore| := by
  unfold anomalies at h
  have h1 := List.take_subset _ _ h
  rw [mem_sortDesc] at h1
  exact of_decide_eq_true (List.mem_filter.mp h1).2

/-- Sample HVAC asset with derived energy 0 (0 active hours at 1 kWh/h). -/
def b1 : AssetDTO :=
  ⟨"b1", "HVAC", "B1", "F1", "Z1", "ONLINE", "LOW", 1, 1, 0⟩

/-- Sample HVAC asset with derived energy 2 (2 active hours at 1 kWh/h). -/
def b2 : AssetDTO :=
  ⟨"b2", "HVAC", "B1", "F1", "Z1", "ONLINE", "LOW", 1, 1, 2⟩

/-- Sample asset of a different category. -/
def other1 : AssetDTO :=
  ⟨"p1", "PUMP", "B2", "F2", "Z2", "OFFLINE", "LOW", 3, 4, 5⟩

/-- A two-asset snapshot forming one HVAC cohort with energies 0 and 2. -/
def assets2 : List AssetDTO := [b1, b2]

theorem kwhB1 : actualKwh b1 = 0 := by norm_num [actualKwh, b1]

theorem kwhB2 : actualKwh b2 = 2 := by norm_num [actualKwh, b2]

theorem peers_assets2 : peersOf assets2 "HVAC" = [b1, b2] := by
  simp [peersOf, assets2, b1, b2]

theorem avg_assets2 : avgKwhOf assets2 "HVAC" = 1 := by
  rw [avgKwhOf, peers_assets2]
  simp [listAvg, kwhB1, kwhB2]

theorem std_assets2 : stdKwhOf assets2 "HVAC" = 1 := by
  rw [stdKwhOf, peers_assets2, listStdPop]
  have hv : listVarPop ([b1, b2].map actualKwh) = 1 := by
    simp [listVarPop, listAvg, kwhB1, kwhB2]
    norm_num
  rw [hv, Real.sqrt_one]

theorem peers_b1_single : peersOf [b1] b1.asset_type = [b1] := by
  simp [peersOf]

theorem std_b1_single : stdKwhOf [b1] b1.asset_type = 0 := by
  rw [stdKwhOf, peers_b1_single]
  simp [listStdPop, listVarPop, listAvg]

theorem row_b1_single_zscore : (rowOf [b1] b1).zscore = 0 := by
  simp only [rowOf, zscoreCase, std_b1_single]
  rw [if_neg (lt_irrefl 0)]

theorem anomalies_b1_eval : anomalies [b1] 0 = [rowOf [b1] b1] := by
  unfold anomalies
  rw [List.take_of_length_le]
  · simp [List.filter_cons, row_b1_single_zscore, sortDesc, insertDesc]
  · simp [List.filter_cons, row_b1_single_zscore, sortDesc, insertDesc]

/-- Claim C1: for every asset passed to the anomaly detection, its z-score
equals `(actual_energy - mean) / stddev` when its category's population
standard deviation is strictly positive, and equals `0` when the standard
deviation is `0`; the standard deviation is never negative, so the two `CASE`
branches are exhaustive and the division-by-zero branch is never taken. -/
theorem zscore_branch_correct (assets : List AssetDTO) (a : AssetDTO)
    (_h : a ∈ assets) :
    0 ≤ (rowOf assets a).std_kwh ∧
    ((rowOf assets a).std_kwh = 0 ∨ 0 < (rowOf assets a).std_kwh) ∧
    (0 < (rowOf assets a).std_kwh →
      (rowOf assets a).zscore =
        ((rowOf assets a).actual_kwh - (rowOf assets a).avg_kwh) /
          (rowOf assets a).std_kwh) ∧
    ((rowOf assets a).std_kwh = 0 → (rowOf assets a).zscore = 0) := by
  have hnn : 0 ≤ (rowOf assets a).std_kwh := Real.sqrt_nonneg _
  refine ⟨hnn, (eq_or_lt_of_le hnn).imp Eq.symm id, ?_, ?_⟩
  · intro hpos
    simp only [rowOf] at hpos ⊢
    rw [zscoreCase, if_pos hpos]
  · intro h0
    simp only [rowOf] at h0 ⊢
    rw [zscoreCase, h0, if_neg (lt_irrefl 0)]

theorem zscore_branch_correct_witness :
    (rowOf assets2 b2).zscore =
      ((rowOf assets2 b2).actual_kwh - (rowOf assets2 b2).avg_kwh) /
        (rowOf assets2 b2).std_kwh := by
  have h := zscore_branch_correct assets2 b2 (by simp [assets2])
  refine h.2.2.1 ?_
  have hstd : (rowOf assets2 b2).std_kwh = 1 := std_assets2
  rw [hstd]
  norm_num

/-- Claim C2: every row returned by the anomaly detection has
`abs(zscore) >= threshold`; a row with smaller magnitude never appears. -/
theorem anomalies_abs_ge_threshold (assets : List AssetDTO) (z : ℝ)
    (r : AnomalyDTO) (h : r ∈ anomalies assets z) : z ≤ |r.zscore| :=
  mem_anomalies_le h

theorem anomalies_abs_ge_threshold_witness :
    (0 : ℝ) ≤ |(rowOf [b1] b1).zscore| :=
  anomalies_abs_ge_threshold [b1] 0 (rowOf [b1] b1)
    (by rw [anomalies_b1_eval]; exact List.mem_singleton.mpr rfl)

/-- Claim C3: the anomaly result is ordered by non-increasing `abs(zscore)`,
has length at most 50, and is exactly the truncation to 50 of the sort of all
filtered matches (sorting happens before the `LIMIT`). -/
theorem anomalies_sorted_and_capped (assets : List AssetDTO) (z : ℝ) :
    (anomalies assets z).Pairwise zAbsGE ∧
    (anomalies assets z).length ≤ 50 ∧
    anomalies assets z = (sortDesc ((assets.map (rowOf assets)).filter
      (fun r => decide (z ≤ |r.zscore|)))).take 50 := by
  refine ⟨?_, ?_, rfl⟩
  · exact List.Pairwise.sublist (List.take_sublist _ _) (pairwise_sortDesc _)
  · exact List.length_take_le _ _

/-- Claim C6: a category with exactly one asset has population standard
deviation 0, its single member scores 0, and it is excluded from the results
whenever the threshold is positive. -/
theorem singleton_category_zscore_zero (assets : List AssetDTO) (a : AssetDTO)
    (z : ℝ) (_h1 : a ∈ assets) (h2 : peersOf assets a.asset_type = [a])
    (h3 : 0 < z) :
    stdKwhOf assets a.asset_type = 0 ∧ (rowOf assets a).zscore = 0 ∧
      rowOf assets a ∉ anomalies assets z := by
  have hstd : stdKwhOf assets a.asset_type = 0 := by
    rw [stdKwhOf, h2]
    simp [listStdPop, listVarPop, listAvg]
  have hz : (rowOf assets a).zscore = 0 := by
    simp only [rowOf, zscoreCase, hstd]
    rw [if_neg (lt_irrefl 0)]
  refine ⟨hstd, hz, fun hmem => ?_⟩
  have hle := mem_anomalies_le hmem
  rw [hz] at hle
  simp only [abs_zero] at hle
  linarith

theorem singleton_category_zscore_zero_witness :
    stdKwhOf [b1] b1.asset_type = 0 ∧ (rowOf [b1] b1).zscore = 0 ∧
      rowOf [b1] b1 ∉ anomalies [b1] 1 :=
  singleton_category_zscore_zero [b1] b1 1 (List.mem_singleton.mpr rfl)
    (by simp [peersOf]) (by norm_num)

/-- Claim C7: on the empty snapshot the anomaly detection returns the empty
sequence for every threshold. -/
theorem anomalies_empty_input (z : ℝ) : anomalies [] z = [] := rfl

/-- Claim C4: the statistics used for an asset's z-score are those of exactly
its own category, computed over the full peer set of the snapshot including
the asset itself (not leave-one-out); assets of other categories never
influence them (prepending a foreign-category asset leaves them unchanged). -/
theorem peer_stats_own_category (assets : List AssetDTO) (a b : AssetDTO)
    (h : a ∈ assets) :
    a ∈ peersOf assets a.asset_type ∧
    (rowOf assets a).avg_kwh = avgKwhOf assets a.asset_type ∧
    (rowOf assets a).std_kwh = stdKwhOf assets a.asset_type ∧
    (b.asset_type ≠ a.asset_type →
      avgKwhOf (b :: assets) a.asset_type = avgKwhOf assets a.asset_type ∧
      stdKwhOf (b :: assets) a.asset_type = stdKwhOf assets a.asset_type) := by
  have hpeer : b.asset_type ≠ a.asset_type →
      peersOf (b :: assets) a.asset_type = peersOf assets a.asset_type := by
    intro hne
    simp [peersOf, List.filter_cons, hne]
  refine ⟨?_, rfl, rfl, fun hne => ?_⟩
  · rw [peersOf]
    exact List.mem_filter.mpr ⟨h, by simp⟩
  · exact ⟨by simp only [avgKwhOf, hpeer hne], by simp only [stdKwhOf, hpeer hne]⟩

theorem peer_stats_own_category_witness :
    b1 ∈ peersOf assets2 b1.asset_type ∧
    avgKwhOf (other1 :: assets2) b1.asset_type = avgKwhOf assets2 b1.asset_type ∧
    stdKwhOf (other1 :: assets2) b1.asset_type = stdKwhOf assets2 b1.asset_type := by
  have h := peer_stats_own_category assets2 b1 other1 (by simp [assets2])
  have h2 := h.2.2.2 (by simp [other1, b1])
  exact ⟨h.1, h2.1, h2.2⟩

/-- Claim C5 is false on the code: the `z` parameter is declared
`Query(2.0, ge=0.0, le=10.0)`, whose bounds are validation constraints, so a
value outside `[0, 10]` (here `11`) is rejected with HTTP 422 — it is not
clamped into the range. -/
theorem z_clamping_counterexample :
    parseZ (some 11) = Except.error 422 ∧ parseZ (some 11) ≠ Except.ok 10 := by
  have h : parseZ (some 11) = Except.error 422 := by
    simp only [parseZ]
    rw [if_neg]
    intro hc
    have h2 := hc.2
    norm_num at h2
  refine ⟨h, ?_⟩
  rw [h]
  simp

/-- Claim C5 (amended): `z` defaults to 2.0 when absent; a supplied value
outside `[0.0, 10.0]` is rejected by the HTTP layer with a validation error
(not clamped); every accepted value is passed through unchanged and lies in
`[0.0, 10.0]`, so the detection always runs with a threshold in that range. -/
theorem z_validation_rejects (v r : ℝ)
    (h : parseZ (some v) = Except.ok r) :
    parseZ none = Except.ok 2 ∧ r = v ∧ 0 ≤ r ∧ r ≤ 10 := by
  refine ⟨rfl, ?_⟩
  simp only [parseZ] at h
  by_cases hc : 0 ≤ v ∧ v ≤ 10
  · rw [if_pos hc] at h
    obtain rfl := Except.ok.inj h
    exact ⟨rfl, hc.1, hc.2⟩
  · rw [if_neg hc] at h
    cases h

theorem z_validation_rejects_witness :
    parseZ none = Except.ok 2 ∧ (5 : ℝ) = 5 ∧ (0 : ℝ) ≤ 5 ∧ (5 : ℝ) ≤ 10 :=
  z_validation_rejects 5 5 (by
    simp only [parseZ]
    rw [if_pos (show (0 : ℝ) ≤ 5 ∧ (5 : ℝ) ≤ 10 by norm_num)])

theorem mem_insertAsc (x a : AssetDTO) (l : List AssetDTO) :
    x ∈ insertAsc a l ↔ x = a ∨ x ∈ l := by
  induction l with
  | nil => simp [insertAsc]
  | cons b rest ih =>
    rw [insertAsc]
    by_cases hc : assetKey b ≤ assetKey a
    · rw [if_pos hc]
      simp only [List.mem_cons, ih]
      tauto
    · rw [if_neg hc]
      simp only [List.mem_cons]

theorem pairwise_insertAsc (a : AssetDTO) (l : List AssetDTO)
    (h : l.Pairwise assetKeyLE) : (insertAsc a l).Pairwise assetKeyLE := by
  induction l with
  | nil => simp [insertAsc, assetKeyLE]
  | cons b rest ih =>
    rw [insertAsc]
    rcases List.pairwise_cons.mp h with ⟨hb, hrest⟩
    by_cases hc : assetKey b ≤ assetKey a
    · rw [if_pos hc]
      refine List.pairwise_cons.mpr ⟨?_, ih hrest⟩
      intro x hx
      rcases (mem_insertAsc x a rest).mp hx with rfl | hx2
      · exact hc
      · exact hb x hx2
    · rw [if_neg hc]
      refine List.pairwise_cons.mpr ⟨?_, h⟩
      intro x hx
      rcases List.mem_cons.mp hx with rfl | hx2
      · exact le_of_not_le hc
      · exact le_trans (le_of_not_le hc) (hb x hx2)

theorem pairwise_sortAssets (l : List AssetDTO) :
    (sortAssets l).Pairwise assetKeyLE := by
  induction l with
  | nil => simp [sortAssets]
  | cons a rest ih =>
    rw [sortAssets]
    exact pairwise_insertAsc a _ ih

theorem mem_sortAssets (x : AssetDTO) (l : List AssetDTO) :
    x ∈ sortAssets l ↔ x ∈ l := by
  induction l with
  | nil => simp [sortAssets]
  | cons a rest ih =>
    rw [sortAssets, mem_insertAsc]
    simp [ih]

/-- Claim C8: an accepted `list_assets` call has `1 <= limit <= 5000` and
`0 <= offset` (defaults 500 and 0), and returns at most `limit` rows, taken
after skipping the first `offset` rows of the filtered set sorted ascending by
the key `(asset_type, building, floor, asset_id)`. -/
theorem list_assets_sorted_paginated (db : List AssetDTO)
    (bQ fQ tQ sQ : Option String) (limit offset : ℤ) (rows : List AssetDTO)
    (h : list_assets db bQ fQ tQ sQ limit offset = Except.ok rows) :
    (1 ≤ limit ∧ limit ≤ 5000 ∧ 0 ≤ offset) ∧
    rows.Pairwise assetKeyLE ∧
    rows.length ≤ limit.toNat ∧
    rows = ((sortAssets (db.filter
      (matchesFilters bQ fQ tQ sQ))).drop offset.toNat).take limit.toNat ∧
    limitDefault = 500 ∧ offsetDefault = 0 := by
  rw [list_assets] at h
  by_cases hc : 1 ≤ limit ∧ limit ≤ 5000 ∧ 0 ≤ offset
  · rw [if_pos hc] at h
    obtain rfl := Except.ok.inj h
    refine ⟨hc, ?_, ?_, rfl, rfl, rfl⟩
    · exact List.Pairwise.sublist
        (List.Sublist.trans (List.take_sublist _ _) (List.drop_sublist _ _))
        (pairwise_sortAssets _)
    · exact List.length_take_le _ _
  · rw [if_neg hc] at h
    cases h

theorem list_assets_sorted_paginated_witness :
    ((1 : ℤ) ≤ 500 ∧ (500 : ℤ) ≤ 5000 ∧ (0 : ℤ) ≤ 0) ∧
    List.Pairwise assetKeyLE [b1] ∧
    [b1].length ≤ (500 : ℤ).toNat ∧
    [b1] = ((sortAssets ([b1].filter
      (matchesFilters none none none none))).drop
        (0 : ℤ).toNat).take (500 : ℤ).toNat ∧
    limitDefault = 500 ∧ offsetDefault = 0 :=
  list_assets_sorted_paginated [b1] none none none none 500 0 [b1] rfl

/-- Claim C9: every row returned by `list_assets` matches each supplied
filter parameter exactly; an omitted (`none`) parameter imposes no
constraint (the all-`none` filter keeps every row of the table). -/
theorem list_assets_filters_exact (db : List AssetDTO)
    (bQ fQ tQ sQ : Option String) (limit offset : ℤ) (rows : List AssetDTO)
    (a : AssetDTO)
    (h : list_assets db bQ fQ tQ sQ limit offset = Except.ok rows)
    (ha : a ∈ rows) :
    (∀ v, bQ = some v → a.building = v) ∧
    (∀ v, fQ = some v → a.floor = v) ∧
    (∀ v, tQ = some v → a.asset_type = v) ∧
    (∀ v, sQ = some v → a.status = v) ∧
    db.filter (matchesFilters none none none none) = db := by
  rw [list_assets] at h
  by_cases hc : 1 ≤ limit ∧ limit ≤ 5000 ∧ 0 ≤ offset
  · rw [if_pos hc] at h
    obtain rfl := Except.ok.inj h
    have h1 := List.drop_subset _ _ (List.take_subset _ _ ha)
    rw [mem_sortAssets] at h1
    have hm := (List.mem_filter.mp h1).2
    rw [matchesFilters] at hm
    simp only [Bool.and_eq_true] at hm
    obtain ⟨⟨⟨hb, hf⟩, ht⟩, hs⟩ := hm
    refine ⟨?_, ?_, ?_, ?_, ?_⟩
    · intro v hv; rw [hv] at hb; exact eq_of_beq hb
    · intro v hv; rw [hv] at hf; exact eq_of_beq hf
    · intro v hv; rw [hv] at ht; exact eq_of_beq ht
    · intro v hv; rw [hv] at hs; exact eq_of_beq hs
    · exact List.filter_eq_self.mpr (fun x _ => by
        simp [matchesFilters, optMatch])
  · rw [if_neg hc] at h
    cases h

theorem list_assets_filters_exact_witness :
    b1.building = "B1" ∧ [b1].filter (matchesFilters none none none none) = [b1] := by
  have h := list_assets_filters_exact [b1] (some "B1") none none none 500 0
    [b1] b1 rfl (List.mem_singleton.mpr rfl)
  exact ⟨h.1 "B1" rfl, h.2.2.2.2⟩

/-- Claim C10: for every database state the KPI summary satisfies
`saved_kwh = baseline_kwh - actual_kwh` (baseline and actual being the sums
of `planned_active_hours * energy_consumed_per_hour` and
`actual_active_hours * energy_consumed_per_hour`), and on the empty table all
three kWh fields and `offline_count` are 0. -/
theorem kpi_saved_eq_baseline_sub_actual (db : List AssetDTO) :
    (kpi_summary db).saved_kwh =
      (kpi_summary db).baseline_kwh - (kpi_summary db).actual_kwh ∧
    kpi_summary [] = ⟨0, 0, 0, 0⟩ := by
  constructor
  · cases db with
    | nil => simp [kpi_summary, sqlSum, optSub, coalesce]
    | cons a rest => simp [kpi_summary, sqlSum, optSub, coalesce]
  · rfl
